import Mathlib

/-!
Shallow embedding of `ibm/service/enterprise/resource_ibm_enterprise.go`
(the Terraform resource binding `ibm_enterprise`): the schema validator for
`primary_contact_iam_id` and the four CRUD entry points
`resourceIbmEnterpriseCreate`, `resourceIbmEnterpriseRead`,
`resourceIbmEnterpriseUpdate`, `resourceIbmEnterpriseDelete`.

Modelling conventions:
* The Terraform `*schema.ResourceData` is split into the declared
  configuration (`DeclaredConfig`, the values `d.Get` returns during
  Create/Update) and the instance record (`InstanceState`: the id stored by
  `d.SetId`/`d.Id` plus the last-known attribute values that `d.Set` writes
  and `d.HasChange` compares against).
* The `meta`/client session and the remote Enterprise Management API are an
  oracle (`Remote`): `client` models `meta.(conns.ClientSession).EnterpriseManagementV1()`,
  and the three call-result fields model the outcome the remote would give
  each possible request.  Each operation returns the resulting instance
  state, its outcome (success / diagnostic error / Go runtime fault), and
  the ordered list of remote calls it issued.
* SDK entity fields of type `*string` are modelled as `String`: every claim
  treats them only as opaque fetched values.  The two `*strfmt.DateTime`
  fields are modelled as `Option GoDateTime` because the Go code calls
  `.String()` on them without a nil check, which faults on nil (claim C10).
-/

namespace IBMEnterprise

/-- Go `strfmt.DateTime` (what `enterprise.CreatedAt` / `UpdatedAt` point
to), carrying its canonical string rendering. -/
structure GoDateTime where
  rfc3339 : String
deriving Repr, DecidableEq

/-- `strfmt.DateTime.String()`: the canonical string representation. -/
def GoDateTime.render (t : GoDateTime) : String := t.rfc3339

/-- The remote `enterprisemanagementv1.Enterprise` entity as consumed by
`resourceIbmEnterpriseRead` (only the fields the Go code reads).  The two
timestamp fields keep their Go pointer nature (`Option`), since the code
dereferences them unconditionally. -/
structure Enterprise where
  enterpriseName : String
  primaryContactIamID : String
  domain : String
  url : String
  enterpriseAccountID : String
  crn : String
  entState : String
  primaryContactEmail : String
  createdAt : Option GoDateTime
  createdBy : String
  updatedAt : Option GoDateTime
  updatedBy : String
deriving Repr, DecidableEq

/-- The declared value of the optional `domain` attribute.  Terraform
configuration distinguishes an attribute that is omitted from one that is
explicitly set (possibly to the empty string), so the declared value is a
tagged option. -/
inductive DomainDecl
  | absent
  | present (s : String)
deriving Repr, DecidableEq

/-- `d.Get("domain").(string)`: Terraform's `Get` returns the zero value
(the empty string) when the attribute is not set. -/
def DomainDecl.getString : DomainDecl → String
  | .absent => ""
  | .present s => s

/-- `d.GetOk("domain")`: per the terraform-plugin-sdk contract, `ok` is true
only when the key has been set to a non-zero value.  For a string attribute
an explicitly configured empty string yields `ok = false`, exactly like an
omitted attribute. -/
def DomainDecl.getOk (d : DomainDecl) : Bool := d.getString != ""

/-- The declared configuration values the resource reads via `d.Get` /
`d.GetOk` / `d.HasChange`: the three required attributes and the optional
`domain`. -/
structure DeclaredConfig where
  source_account_id : String
  config_name : String
  primary_contact_iam_id : String
  domain : DomainDecl
deriving Repr, DecidableEq

/-- The attribute values held in the Terraform state (what `d.Set` writes
and what `d.HasChange` compares the declared configuration against). -/
structure Attrs where
  source_account_id : String
  attr_name : String
  primary_contact_iam_id : String
  domain : String
  url : String
  enterprise_account_id : String
  crn : String
  attr_state : String
  primary_contact_email : String
  created_at : String
  created_by : String
  updated_at : String
  updated_by : String
deriving Repr, DecidableEq

/-- The instance record: the identifier (`d.Id()`, the empty string when
unset, written by `d.SetId`) plus the stored attribute values. -/
structure InstanceState where
  id : String
  attrs : Attrs
deriving Repr, DecidableEq

/-- `enterprisemanagementv1.CreateEnterpriseOptions` as built by
`resourceIbmEnterpriseCreate`: the three required fields are always set,
`domain` only behind `d.GetOk`. -/
structure CreateEnterpriseOptions where
  sourceAccountID : String
  optName : String
  primaryContactIamID : String
  domain : Option String
deriving Repr, DecidableEq

/-- `enterprisemanagementv1.UpdateEnterpriseOptions` as built by
`resourceIbmEnterpriseUpdate`.  `sourceAccountID` models the slot the
commented-out `SetSourceAccountID` block (source lines 200–204) would have
filled; the live code never sets it, which is what lets us state that the
update request never carries the immutable `source_account_id`. -/
structure UpdateEnterpriseOptions where
  enterpriseID : String
  optName : Option String
  primaryContactIamID : Option String
  domain : Option String
  sourceAccountID : Option String
deriving Repr, DecidableEq

/-- Outcome of `GetEnterpriseWithContext`: a fetched entity, or an error
together with the (possibly nil) HTTP response status code. -/
inductive GetOutcome
  | success (e : Enterprise)
  | failure (statusCode : Option Nat) (msg : String)
deriving Repr, DecidableEq

/-- Outcome of `UpdateEnterpriseWithContext`. -/
inductive UpdateOutcome
  | success
  | failure (msg : String)
deriving Repr, DecidableEq

/-- The external world: the client session and the remote API's responses.
`client` is `meta.(conns.ClientSession).EnterpriseManagementV1()` — an error
here is the capability-unavailable case.  `createResult` returns either an
error message or the `EnterpriseID` of the created enterprise. -/
structure Remote where
  client : Except String Unit
  createResult : CreateEnterpriseOptions → Except String String
  getResult : String → GetOutcome
  updateResult : UpdateEnterpriseOptions → UpdateOutcome

/-- One remote call, recorded in the order the operation issues them. -/
inductive RemoteCall
  | create (opts : CreateEnterpriseOptions)
  | get (enterpriseID : String)
  | update (opts : UpdateEnterpriseOptions)
deriving Repr, DecidableEq

/-- How an operation finishes: `ok` (nil diagnostics), `error` (non-nil
`diag.Diagnostics` carrying the message), or `fault` (a Go runtime panic —
here only the nil-pointer dereference of a timestamp field). -/
inductive OpOutcome
  | ok
  | error (msg : String)
  | fault
deriving Repr, DecidableEq

/-- Result of one operation: the instance state afterwards, the outcome,
and the remote calls issued. -/
structure OpResult where
  st : InstanceState
  outcome : OpOutcome
  calls : List RemoteCall
deriving Repr, DecidableEq

/-- `resourceIbmEnterpriseRead` (source lines 126–187).
On client failure: `diag.FromErr(err)`, no remote call.
On fetch failure with a non-nil 404 response: `d.SetId("")`, return nil.
On any other fetch failure: `diag.FromErr(err)`.
On success: `d.Set` every attribute from the entity; the two timestamp
fields go through `.String()` on a possibly-nil pointer, so a nil timestamp
is a runtime fault (the process aborts, so no intermediate attribute write
is observable).  `source_account_id` is never set (the assignment is
commented out in the source). -/
def resourceIbmEnterpriseRead (remote : Remote) (st : InstanceState) : OpResult :=
  match remote.client with
  | .error msg => ⟨st, .error msg, []⟩
  | .ok _ =>
    match remote.getResult st.id with
    | .failure statusCode msg =>
      if statusCode = some 404 then ⟨{ st with id := "" }, .ok, [.get st.id]⟩
      else ⟨st, .error msg, [.get st.id]⟩
    | .success e =>
      match e.createdAt, e.updatedAt with
      | some ca, some ua =>
        ⟨{ st with attrs :=
            { st.attrs with
                attr_name := e.enterpriseName
                primary_contact_iam_id := e.primaryContactIamID
                domain := e.domain
                url := e.url
                enterprise_account_id := e.enterpriseAccountID
                crn := e.crn
                attr_state := e.entState
                primary_contact_email := e.primaryContactEmail
                created_at := ca.render
                created_by := e.createdBy
                updated_at := ua.render
                updated_by := e.updatedBy } },
          .ok, [.get st.id]⟩
      | _, _ => ⟨st, .fault, [.get st.id]⟩

/-- The creation request built at source lines 110–116: required fields via
`d.Get`, `domain` only when `d.GetOk("domain")` reports a non-zero value. -/
def buildCreateOptions (cfg : DeclaredConfig) : CreateEnterpriseOptions :=
  { sourceAccountID := cfg.source_account_id
    optName := cfg.config_name
    primaryContactIamID := cfg.primary_contact_iam_id
    domain := if cfg.domain.getOk then some cfg.domain.getString else none }

/-- `resourceIbmEnterpriseCreate` (source lines 105–124).
Client failure short-circuits; a remote creation error is returned before
`d.SetId` runs; on success the returned `EnterpriseID` is assigned and the
function tail-calls `resourceIbmEnterpriseRead`. -/
def resourceIbmEnterpriseCreate (remote : Remote) (cfg : DeclaredConfig)
    (st : InstanceState) : OpResult :=
  match remote.client with
  | .error msg => ⟨st, .error msg, []⟩
  | .ok _ =>
    let opts := buildCreateOptions cfg
    match remote.createResult opts with
    | .error msg => ⟨st, .error msg, [.create opts]⟩
    | .ok entID =>
      let st' := { st with id := entID }
      let r := resourceIbmEnterpriseRead remote st'
      ⟨r.st, r.outcome, .create opts :: r.calls⟩

/-- Whether any of the three `d.HasChange` checks at source lines 206–218
fires: `HasChange` compares the declared value against the stored one
(`d.Get("domain")` is the zero value `""` for an omitted domain). -/
def updHasChange (cfg : DeclaredConfig) (a : Attrs) : Bool :=
  cfg.config_name != a.attr_name ||
  cfg.primary_contact_iam_id != a.primary_contact_iam_id ||
  cfg.domain.getString != a.domain

/-- The update request built at source lines 194–218: the enterprise id is
always set; each mutable field is set exactly when its `d.HasChange` check
fires (the three independent `if` blocks in the source); the
`source_account_id` block is commented out, so that slot stays `none`. -/
def buildUpdateOptions (cfg : DeclaredConfig) (st : InstanceState) :
    UpdateEnterpriseOptions :=
  { enterpriseID := st.id
    optName := if cfg.config_name ≠ st.attrs.attr_name then some cfg.config_name else none
    primaryContactIamID :=
      if cfg.primary_contact_iam_id ≠ st.attrs.primary_contact_iam_id then
        some cfg.primary_contact_iam_id
      else none
    domain :=
      if cfg.domain.getString ≠ st.attrs.domain then some cfg.domain.getString
      else none
    sourceAccountID := none }

/-- `resourceIbmEnterpriseUpdate` (source lines 189–228).
Client failure short-circuits.  If any `HasChange` fired, one remote update
call is issued; a remote error returns immediately (no trailing read).
Otherwise — no change, or a successful update — the function tail-calls
`resourceIbmEnterpriseRead`. -/
def resourceIbmEnterpriseUpdate (remote : Remote) (cfg : DeclaredConfig)
    (st : InstanceState) : OpResult :=
  match remote.client with
  | .error msg => ⟨st, .error msg, []⟩
  | .ok _ =>
    let opts := buildUpdateOptions cfg st
    if updHasChange cfg st.attrs then
      match remote.updateResult opts with
      | .failure msg => ⟨st, .error msg, [.update opts]⟩
      | .success =>
        let r := resourceIbmEnterpriseRead remote st
        ⟨r.st, r.outcome, .update opts :: r.calls⟩
    else
      let r := resourceIbmEnterpriseRead remote st
      ⟨r.st, r.outcome, r.calls⟩

/-- `resourceIbmEnterpriseDelete` (source lines 230–234): `d.SetId("")` and
return nil.  The `remote` argument mirrors the unused `meta` parameter —
the function never obtains the client and issues no remote call. -/
def resourceIbmEnterpriseDelete (remote : Remote) (st : InstanceState) : OpResult :=
  ⟨{ st with id := "" }, .ok, []⟩

/-- One character of the Go regexp character class `[A-Z,0-9]` (source line
49): an uppercase letter, a comma, or a digit. -/
def iamIdClassChar (c : Char) : Bool :=
  (decide ('A' ≤ c) && decide (c ≤ 'Z')) || c == ',' ||
  (decide ('0' ≤ c) && decide (c ≤ '9'))

/-- The schema validator for `primary_contact_iam_id`:
`validate.ValidateRegexps("^IBMid\\-[A-Z,0-9]{10}$")` — anchored match of
the literal prefix `IBMid-` followed by exactly ten characters of the class
`[A-Z,0-9]`. -/
def primaryContactIamIdValid (s : String) : Bool :=
  s.take 6 == "IBMid-" && s.length == 16 && (s.drop 6).toList.all iamIdClassChar

/-- The validator as the specification words it: the fixed prefix followed
by exactly ten uppercase alphanumeric characters (uppercase letters or
digits, nothing else).  Kept separate to compare with the source's
validator. -/
def specIamIdValid (s : String) : Bool :=
  s.take 6 == "IBMid-" && s.length == 16 &&
    (s.drop 6).toList.all (fun c =>
      (decide ('A' ≤ c) && decide (c ≤ 'Z')) ||
      (decide ('0' ≤ c) && decide (c ≤ '9')))

/-- Is a recorded call a get (read) call? -/
def RemoteCall.isGet : RemoteCall → Bool
  | .get _ => true
  | _ => false

/-- Is a recorded call an update call? -/
def RemoteCall.isUpdate : RemoteCall → Bool
  | .update _ => true
  | _ => false

/-! ### Concrete fixtures used by witnesses and counterexamples -/

/-- Stored attribute values of an already-created enterprise. -/
def attrsPrior : Attrs :=
  ⟨"acc-1", "Acme Corp", "IBMid-AB12CD34EF", "acme.com", "https://api.example",
   "acct-9", "crn:v1:ent-123", "active", "a@example.com",
   "2021-01-01T00:00:00.000Z", "IBMid-CREATOR00", "2021-01-02T00:00:00.000Z",
   "IBMid-UPDATER00"⟩

/-- An instance whose identifier is set. -/
def stPrior : InstanceState := ⟨"ent-123", attrsPrior⟩

/-- An instance whose identifier is unset. -/
def stUnset : InstanceState := ⟨"", attrsPrior⟩

/-- A declared configuration matching `attrsPrior` except for a renamed
enterprise. -/
def cfgRenamed : DeclaredConfig :=
  ⟨"acc-1", "Acme Corp Renamed", "IBMid-AB12CD34EF", .present "acme.com"⟩

/-- A declared configuration identical to the stored attributes. -/
def cfgSame : DeclaredConfig :=
  ⟨"acc-1", "Acme Corp", "IBMid-AB12CD34EF", .present "acme.com"⟩

/-- A declared configuration whose `domain` is explicitly the empty string. -/
def cfgEmptyDomain : DeclaredConfig :=
  ⟨"acc-1", "Acme Corp", "IBMid-AB12CD34EF", .present ""⟩

/-- A declared configuration whose `domain` is omitted. -/
def cfgAbsentDomain : DeclaredConfig :=
  ⟨"acc-1", "Acme Corp", "IBMid-AB12CD34EF", .absent⟩

/-- A remote entity with both timestamps present. -/
def entOk : Enterprise :=
  ⟨"Acme Corp", "IBMid-AB12CD34EF", "acme.com", "https://api.example", "acct-9",
   "crn:v1:ent-123", "active", "a@example.com",
   some ⟨"2021-01-01T00:00:00.000Z"⟩, "IBMid-CREATOR00",
   some ⟨"2021-01-02T00:00:00.000Z"⟩, "IBMid-UPDATER00"⟩

/-- A remote entity whose `created_at` pointer is nil. -/
def entNilCreated : Enterprise :=
  ⟨"Acme Corp", "IBMid-AB12CD34EF", "acme.com", "https://api.example", "acct-9",
   "crn:v1:ent-123", "active", "a@example.com", none, "IBMid-CREATOR00",
   some ⟨"2021-01-02T00:00:00.000Z"⟩, "IBMid-UPDATER00"⟩

/-- A remote where every call succeeds. -/
def remoteOk : Remote :=
  ⟨.ok (), fun _ => .ok "ent-123", fun _ => .success entOk, fun _ => .success⟩

/-- A remote whose creation call fails. -/
def remoteCreateFail : Remote :=
  ⟨.ok (), fun _ => .error "create failed", fun _ => .success entOk,
   fun _ => .success⟩

/-- A remote whose fetch reports a 404 not-found response. -/
def remote404 : Remote :=
  ⟨.ok (), fun _ => .ok "ent-123", fun _ => .failure (some 404) "not found",
   fun _ => .success⟩

/-- A remote whose creation succeeds but whose fetch fails with a non-404
error. -/
def remoteGetFail : Remote :=
  ⟨.ok (), fun _ => .ok "ent-123", fun _ => .failure (some 500) "get failed",
   fun _ => .success⟩

/-- A remote whose update call fails. -/
def remoteUpdateFail : Remote :=
  ⟨.ok (), fun _ => .ok "ent-123", fun _ => .success entOk,
   fun _ => .failure "update failed"⟩

/-- A remote whose fetch returns an entity with a nil `created_at`. -/
def remoteNilCreated : Remote :=
  ⟨.ok (), fun _ => .ok "ent-123", fun _ => .success entNilCreated,
   fun _ => .success⟩

/-- A remote where the client session cannot be obtained. -/
def remoteNoClient : Remote :=
  ⟨.error "no credentials", fun _ => .ok "ent-123", fun _ => .success entOk,
   fun _ => .success⟩

/-! ### Helper lemmas shared by the claim theorems -/

/-- With the client available, `Read` issues exactly one fetch for the
stored identifier, in every branch. -/
theorem read_calls_client_ok (remote : Remote) (st : InstanceState)
    (h : remote.client = .ok ()) :
    (resourceIbmEnterpriseRead remote st).calls = [RemoteCall.get st.id] := by
  simp only [resourceIbmEnterpriseRead, h]
  cases hg : remote.getResult st.id with
  | success e =>
    cases hca : e.createdAt <;> cases hua : e.updatedAt <;> simp [hca, hua]
  | failure sc msg => by_cases h4 : sc = some 404 <;> simp [h4]

/-- Full evaluation of `Read` on a successful fetch whose timestamps are
both present. -/
theorem read_success_eq (remote : Remote) (st : InstanceState) (e : Enterprise)
    (ca ua : GoDateTime)
    (hclient : remote.client = .ok ())
    (hget : remote.getResult st.id = .success e)
    (hca : e.createdAt = some ca) (hua : e.updatedAt = some ua) :
    resourceIbmEnterpriseRead remote st =
      ⟨{ st with attrs :=
          { st.attrs with
              attr_name := e.enterpriseName
              primary_contact_iam_id := e.primaryContactIamID
              domain := e.domain
              url := e.url
              enterprise_account_id := e.enterpriseAccountID
              crn := e.crn
              attr_state := e.entState
              primary_contact_email := e.primaryContactEmail
              created_at := ca.render
              created_by := e.createdBy
              updated_at := ua.render
              updated_by := e.updatedBy } },
        .ok, [.get st.id]⟩ := by
  simp [resourceIbmEnterpriseRead, hclient, hget, hca, hua]

/-- Full evaluation of `Read` on a fetch failure whose status is not a
non-nil 404: the error is surfaced and the state left untouched. -/
theorem read_failure_eq (remote : Remote) (st : InstanceState)
    (sc : Option Nat) (msg : String)
    (hclient : remote.client = .ok ())
    (hget : remote.getResult st.id = .failure sc msg)
    (h404 : sc ≠ some 404) :
    resourceIbmEnterpriseRead remote st = ⟨st, .error msg, [.get st.id]⟩ := by
  simp [resourceIbmEnterpriseRead, hclient, hget, h404]

/-! ### Claim theorems -/

/-- C2 (confirmed): whenever the remote fetch fails with a 404 status,
`resourceIbmEnterpriseRead` clears the instance identifier (`d.SetId("")`,
the ABSENT transition) and returns success (nil diagnostics), never an
error. -/
theorem C2_read_not_found (remote : Remote) (st : InstanceState) (msg : String)
    (hclient : remote.client = .ok ())
    (hget : remote.getResult st.id = .failure (some 404) msg) :
    (resourceIbmEnterpriseRead remote st).st.id = "" ∧
    (resourceIbmEnterpriseRead remote st).outcome = .ok := by
  simp [resourceIbmEnterpriseRead, hclient, hget]

/-- Witness for C2 at a concrete not-found remote. -/
theorem C2_read_not_found_witness :
    (resourceIbmEnterpriseRead remote404 stPrior).st.id = "" ∧
    (resourceIbmEnterpriseRead remote404 stPrior).outcome = .ok :=
  C2_read_not_found remote404 stPrior "not found" rfl rfl

/-- C3 (confirmed): when the remote creation call fails,
`resourceIbmEnterpriseCreate` returns the remote error and never runs
`d.SetId`, so the identifier stays unset and the state is untouched. -/
theorem C3_create_failure (remote : Remote) (cfg : DeclaredConfig)
    (st : InstanceState) (msg : String)
    (hclient : remote.client = .ok ())
    (hfail : remote.createResult (buildCreateOptions cfg) = .error msg)
    (hid : st.id = "") :
    (resourceIbmEnterpriseCreate remote cfg st).outcome = .error msg ∧
    (resourceIbmEnterpriseCreate remote cfg st).st = st ∧
    (resourceIbmEnterpriseCreate remote cfg st).st.id = "" := by
  simp [resourceIbmEnterpriseCreate, hclient, hfail, hid]

/-- Witness for C3 at a concrete failing create. -/
theorem C3_create_failure_witness :
    (resourceIbmEnterpriseCreate remoteCreateFail cfgSame stUnset).outcome =
      .error "create failed" ∧
    (resourceIbmEnterpriseCreate remoteCreateFail cfgSame stUnset).st = stUnset ∧
    (resourceIbmEnterpriseCreate remoteCreateFail cfgSame stUnset).st.id = "" :=
  C3_create_failure remoteCreateFail cfgSame stUnset "create failed" rfl rfl rfl

/-- C9 (confirmed): on a successful fetch whose timestamp pointers are
non-nil, `resourceIbmEnterpriseRead` overwrites every one of the twelve
attributes with the fetched value, the two timestamps through the canonical
string rendering, and returns success.  (The non-nil hypotheses are needed:
a nil timestamp makes the success path fault instead — claim C10.) -/
theorem C9_read_success_overwrites (remote : Remote) (st : InstanceState)
    (e : Enterprise) (ca ua : GoDateTime)
    (hclient : remote.client = .ok ())
    (hget : remote.getResult st.id = .success e)
    (hca : e.createdAt = some ca) (hua : e.updatedAt = some ua) :
    (resourceIbmEnterpriseRead remote st).st.attrs.attr_name = e.enterpriseName ∧
    (resourceIbmEnterpriseRead remote st).st.attrs.primary_contact_iam_id =
      e.primaryContactIamID ∧
    (resourceIbmEnterpriseRead remote st).st.attrs.domain = e.domain ∧
    (resourceIbmEnterpriseRead remote st).st.attrs.url = e.url ∧
    (resourceIbmEnterpriseRead remote st).st.attrs.enterprise_account_id =
      e.enterpriseAccountID ∧
    (resourceIbmEnterpriseRead remote st).st.attrs.crn = e.crn ∧
    (resourceIbmEnterpriseRead remote st).st.attrs.attr_state = e.entState ∧
    (resourceIbmEnterpriseRead remote st).st.attrs.primary_contact_email =
      e.primaryContactEmail ∧
    (resourceIbmEnterpriseRead remote st).st.attrs.created_at = ca.render ∧
    (resourceIbmEnterpriseRead remote st).st.attrs.created_by = e.createdBy ∧
    (resourceIbmEnterpriseRead remote st).st.attrs.updated_at = ua.render ∧
    (resourceIbmEnterpriseRead remote st).st.attrs.updated_by = e.updatedBy ∧
    (resourceIbmEnterpriseRead remote st).outcome = .ok := by
  rw [read_success_eq remote st e ca ua hclient hget hca hua]
  exact ⟨rfl, rfl, rfl, rfl, rfl, rfl, rfl, rfl, rfl, rfl, rfl, rfl, rfl⟩

/-- Witness for C9 at a concrete successful fetch. -/
theorem C9_read_success_overwrites_witness :
    (resourceIbmEnterpriseRead remoteOk stPrior).st.attrs.attr_name =
      entOk.enterpriseName ∧
    (resourceIbmEnterpriseRead remoteOk stPrior).st.attrs.primary_contact_iam_id =
      entOk.primaryContactIamID ∧
    (resourceIbmEnterpriseRead remoteOk stPrior).st.attrs.domain = entOk.domain ∧
    (resourceIbmEnterpriseRead remoteOk stPrior).st.attrs.url = entOk.url ∧
    (resourceIbmEnterpriseRead remoteOk stPrior).st.attrs.enterprise_account_id =
      entOk.enterpriseAccountID ∧
    (resourceIbmEnterpriseRead remoteOk stPrior).st.attrs.crn = entOk.crn ∧
    (resourceIbmEnterpriseRead remoteOk stPrior).st.attrs.attr_state =
      entOk.entState ∧
    (resourceIbmEnterpriseRead remoteOk stPrior).st.attrs.primary_contact_email =
      entOk.primaryContactEmail ∧
    (resourceIbmEnterpriseRead remoteOk stPrior).st.attrs.created_at =
      GoDateTime.render ⟨"2021-01-01T00:00:00.000Z"⟩ ∧
    (resourceIbmEnterpriseRead remoteOk stPrior).st.attrs.created_by =
      entOk.createdBy ∧
    (resourceIbmEnterpriseRead remoteOk stPrior).st.attrs.updated_at =
      GoDateTime.render ⟨"2021-01-02T00:00:00.000Z"⟩ ∧
    (resourceIbmEnterpriseRead remoteOk stPrior).st.attrs.updated_by =
      entOk.updatedBy ∧
    (resourceIbmEnterpriseRead remoteOk stPrior).outcome = .ok :=
  C9_read_success_overwrites remoteOk stPrior entOk
    ⟨"2021-01-01T00:00:00.000Z"⟩ ⟨"2021-01-02T00:00:00.000Z"⟩ rfl rfl rfl rfl

/-- C10 (confirmed): the success path of `Read` converts
`enterprise.CreatedAt` and `enterprise.UpdatedAt` with `.String()` and no
nil check, so on a successful fetch it faults exactly when one of the two
timestamp pointers is nil — their presence is necessary and sufficient for
fault-freedom. -/
theorem C10_read_timestamp_deref (remote : Remote) (st : InstanceState)
    (e : Enterprise)
    (hclient : remote.client = .ok ())
    (hget : remote.getResult st.id = .success e) :
    (resourceIbmEnterpriseRead remote st).outcome = .fault ↔
      (e.createdAt = none ∨ e.updatedAt = none) := by
  simp only [resourceIbmEnterpriseRead, hclient, hget]
  cases hca : e.createdAt <;> cases hua : e.updatedAt <;> simp [hca, hua]

/-- Witness for C10 at a concrete fetch with a nil `created_at`. -/
theorem C10_read_timestamp_deref_witness :
    (resourceIbmEnterpriseRead remoteNilCreated stPrior).outcome = .fault ↔
      (entNilCreated.createdAt = none ∨ entNilCreated.updatedAt = none) :=
  C10_read_timestamp_deref remoteNilCreated stPrior entNilCreated rfl rfl

/-- C4 (counterexample to the claim as stated): a creation call that
succeeds followed by a trailing fetch that fails with a non-404 error makes
Create return the error with the identifier already recorded and every
derived attribute unpopulated — a partially-hydrated instance is exposed to
the caller. -/
theorem C4_counterexample :
    remoteGetFail.createResult (buildCreateOptions cfgSame) =
      Except.ok "ent-123" ∧
    (resourceIbmEnterpriseCreate remoteGetFail cfgSame stUnset).st.id =
      "ent-123" ∧
    (resourceIbmEnterpriseCreate remoteGetFail cfgSame stUnset).outcome =
      .error "get failed" ∧
    (resourceIbmEnterpriseCreate remoteGetFail cfgSame stUnset).st.attrs =
      stUnset.attrs :=
  ⟨rfl, rfl, rfl, rfl⟩

/-- C4 (amended): when the remote creation call succeeds,
`resourceIbmEnterpriseCreate` assigns the returned identifier (`d.SetId`)
and tail-calls `Read` on the id-assigned state — its result and the single
trailing fetch are exactly those of that `Read`.  Whenever that fetch
succeeds with well-formed timestamps, control returns with the identifier
set, success, and every derived attribute populated from the remote
entity; whenever it fails with a non-404 error, control returns that error
with the identifier set and the attributes untouched (unhydrated). -/
theorem C4_create_success (remote : Remote) (cfg : DeclaredConfig)
    (st : InstanceState) (entID : String)
    (hclient : remote.client = .ok ())
    (hok : remote.createResult (buildCreateOptions cfg) = .ok entID) :
    (resourceIbmEnterpriseCreate remote cfg st).calls =
      RemoteCall.create (buildCreateOptions cfg) ::
        (resourceIbmEnterpriseRead remote { st with id := entID }).calls ∧
    (resourceIbmEnterpriseRead remote { st with id := entID }).calls =
      [RemoteCall.get entID] ∧
    (resourceIbmEnterpriseCreate remote cfg st).st =
      (resourceIbmEnterpriseRead remote { st with id := entID }).st ∧
    (resourceIbmEnterpriseCreate remote cfg st).outcome =
      (resourceIbmEnterpriseRead remote { st with id := entID }).outcome ∧
    (∀ e ca ua, remote.getResult entID = GetOutcome.success e →
      e.createdAt = some ca → e.updatedAt = some ua →
      (resourceIbmEnterpriseCreate remote cfg st).st.id = entID ∧
      (resourceIbmEnterpriseCreate remote cfg st).outcome = OpOutcome.ok ∧
      (resourceIbmEnterpriseCreate remote cfg st).st.attrs =
        { st.attrs with
            attr_name := e.enterpriseName
            primary_contact_iam_id := e.primaryContactIamID
            domain := e.domain
            url := e.url
            enterprise_account_id := e.enterpriseAccountID
            crn := e.crn
            attr_state := e.entState
            primary_contact_email := e.primaryContactEmail
            created_at := ca.render
            created_by := e.createdBy
            updated_at := ua.render
            updated_by := e.updatedBy }) ∧
    (∀ sc msg, remote.getResult entID = GetOutcome.failure sc msg →
      sc ≠ some 404 →
      (resourceIbmEnterpriseCreate remote cfg st).st.id = entID ∧
      (resourceIbmEnterpriseCreate remote cfg st).outcome = OpOutcome.error msg ∧
      (resourceIbmEnterpriseCreate remote cfg st).st.attrs = st.attrs) := by
  have hcreate : resourceIbmEnterpriseCreate remote cfg st =
      ⟨(resourceIbmEnterpriseRead remote { st with id := entID }).st,
       (resourceIbmEnterpriseRead remote { st with id := entID }).outcome,
       .create (buildCreateOptions cfg) ::
         (resourceIbmEnterpriseRead remote { st with id := entID }).calls⟩ := by
    simp [resourceIbmEnterpriseCreate, hclient, hok]
  refine ⟨by rw [hcreate], read_calls_client_ok remote _ hclient,
    by rw [hcreate], by rw [hcreate], ?_, ?_⟩
  · intro e ca ua hget hca hua
    have hread := read_success_eq remote { st with id := entID } e ca ua hclient
      hget hca hua
    rw [hcreate, hread]
    exact ⟨rfl, rfl, rfl⟩
  · intro sc msg hget h404
    have hread := read_failure_eq remote { st with id := entID } sc msg hclient
      hget h404
    rw [hcreate, hread]
    exact ⟨rfl, rfl, rfl⟩

/-- Witness for C4 at a concrete successful create. -/
theorem C4_create_success_witness :
    (resourceIbmEnterpriseCreate remoteOk cfgSame stUnset).calls =
      RemoteCall.create (buildCreateOptions cfgSame) ::
        (resourceIbmEnterpriseRead remoteOk { stUnset with id := "ent-123" }).calls ∧
    (resourceIbmEnterpriseRead remoteOk { stUnset with id := "ent-123" }).calls =
      [RemoteCall.get "ent-123"] ∧
    (resourceIbmEnterpriseCreate remoteOk cfgSame stUnset).st =
      (resourceIbmEnterpriseRead remoteOk { stUnset with id := "ent-123" }).st ∧
    (resourceIbmEnterpriseCreate remoteOk cfgSame stUnset).outcome =
      (resourceIbmEnterpriseRead remoteOk { stUnset with id := "ent-123" }).outcome ∧
    (∀ e ca ua, remoteOk.getResult "ent-123" = GetOutcome.success e →
      e.createdAt = some ca → e.updatedAt = some ua →
      (resourceIbmEnterpriseCreate remoteOk cfgSame stUnset).st.id = "ent-123" ∧
      (resourceIbmEnterpriseCreate remoteOk cfgSame stUnset).outcome =
        OpOutcome.ok ∧
      (resourceIbmEnterpriseCreate remoteOk cfgSame stUnset).st.attrs =
        { stUnset.attrs with
            attr_name := e.enterpriseName
            primary_contact_iam_id := e.primaryContactIamID
            domain := e.domain
            url := e.url
            enterprise_account_id := e.enterpriseAccountID
            crn := e.crn
            attr_state := e.entState
            primary_contact_email := e.primaryContactEmail
            created_at := ca.render
            created_by := e.createdBy
            updated_at := ua.render
            updated_by := e.updatedBy }) ∧
    (∀ sc msg, remoteOk.getResult "ent-123" = GetOutcome.failure sc msg →
      sc ≠ some 404 →
      (resourceIbmEnterpriseCreate remoteOk cfgSame stUnset).st.id =
        "ent-123" ∧
      (resourceIbmEnterpriseCreate remoteOk cfgSame stUnset).outcome =
        OpOutcome.error msg ∧
      (resourceIbmEnterpriseCreate remoteOk cfgSame stUnset).st.attrs =
        stUnset.attrs) :=
  C4_create_success remoteOk cfgSame stUnset "ent-123" rfl rfl

/-- C1 (counterexample to the claim as stated): with the name changed and a
remote whose update call fails, `resourceIbmEnterpriseUpdate` issues the
one update call but performs no trailing Read, against the claim's "in both
cases Update then performs a Read". -/
theorem C1_counterexample :
    cfgRenamed.config_name ≠ stPrior.attrs.attr_name ∧
    ((resourceIbmEnterpriseUpdate remoteUpdateFail cfgRenamed stPrior).calls.filter
      RemoteCall.isUpdate).length = 1 ∧
    ((resourceIbmEnterpriseUpdate remoteUpdateFail cfgRenamed stPrior).calls.filter
      RemoteCall.isGet).length = 0 := by
  refine ⟨by decide, rfl, rfl⟩

/-- C1 (amended): with the client available, Update issues zero remote
update calls and one trailing Read when no mutable attribute changed; when
at least one changed it issues exactly one update call whose request
carries exactly the changed mutable attributes and never the immutable
`source_account_id`, followed by a trailing Read only if the update call
succeeded — on update failure the remote error is returned with no Read. -/
theorem C1_update_contract (remote : Remote) (cfg : DeclaredConfig)
    (st : InstanceState)
    (hclient : remote.client = .ok ()) :
    (updHasChange cfg st.attrs = false →
      (resourceIbmEnterpriseUpdate remote cfg st).calls = [RemoteCall.get st.id]) ∧
    (updHasChange cfg st.attrs = true →
      (buildUpdateOptions cfg st).sourceAccountID = none ∧
      ((buildUpdateOptions cfg st).optName =
        if cfg.config_name ≠ st.attrs.attr_name then some cfg.config_name
        else none) ∧
      ((buildUpdateOptions cfg st).primaryContactIamID =
        if cfg.primary_contact_iam_id ≠ st.attrs.primary_contact_iam_id then
          some cfg.primary_contact_iam_id
        else none) ∧
      ((buildUpdateOptions cfg st).domain =
        if cfg.domain.getString ≠ st.attrs.domain then some cfg.domain.getString
        else none) ∧
      (remote.updateResult (buildUpdateOptions cfg st) = .success →
        (resourceIbmEnterpriseUpdate remote cfg st).calls =
          [RemoteCall.update (buildUpdateOptions cfg st),
           RemoteCall.get st.id]) ∧
      (∀ msg, remote.updateResult (buildUpdateOptions cfg st) = .failure msg →
        (resourceIbmEnterpriseUpdate remote cfg st).calls =
          [RemoteCall.update (buildUpdateOptions cfg st)] ∧
        (resourceIbmEnterpriseUpdate remote cfg st).outcome = .error msg ∧
        (resourceIbmEnterpriseUpdate remote cfg st).st = st)) := by
  constructor
  · intro hnc
    simp [resourceIbmEnterpriseUpdate, hclient, hnc,
      read_calls_client_ok remote st hclient]
  · intro hc
    refine ⟨rfl, rfl, rfl, rfl, ?_, ?_⟩
    · intro hups
      simp [resourceIbmEnterpriseUpdate, hclient, hc, hups,
        read_calls_client_ok remote st hclient]
    · intro msg hupf
      simp [resourceIbmEnterpriseUpdate, hclient, hc, hupf]

/-- Witness for C1's amended theorem at a concrete no-change update. -/
theorem C1_update_contract_witness :
    (updHasChange cfgSame stPrior.attrs = false →
      (resourceIbmEnterpriseUpdate remoteOk cfgSame stPrior).calls =
        [RemoteCall.get stPrior.id]) ∧
    (updHasChange cfgSame stPrior.attrs = true →
      (buildUpdateOptions cfgSame stPrior).sourceAccountID = none ∧
      ((buildUpdateOptions cfgSame stPrior).optName =
        if cfgSame.config_name ≠ stPrior.attrs.attr_name then
          some cfgSame.config_name
        else none) ∧
      ((buildUpdateOptions cfgSame stPrior).primaryContactIamID =
        if cfgSame.primary_contact_iam_id ≠ stPrior.attrs.primary_contact_iam_id
        then some cfgSame.primary_contact_iam_id
        else none) ∧
      ((buildUpdateOptions cfgSame stPrior).domain =
        if cfgSame.domain.getString ≠ stPrior.attrs.domain then
          some cfgSame.domain.getString
        else none) ∧
      (remoteOk.updateResult (buildUpdateOptions cfgSame stPrior) = .success →
        (resourceIbmEnterpriseUpdate remoteOk cfgSame stPrior).calls =
          [RemoteCall.update (buildUpdateOptions cfgSame stPrior),
           RemoteCall.get stPrior.id]) ∧
      (∀ msg,
        remoteOk.updateResult (buildUpdateOptions cfgSame stPrior) =
          .failure msg →
        (resourceIbmEnterpriseUpdate remoteOk cfgSame stPrior).calls =
          [RemoteCall.update (buildUpdateOptions cfgSame stPrior)] ∧
        (resourceIbmEnterpriseUpdate remoteOk cfgSame stPrior).outcome =
          .error msg ∧
        (resourceIbmEnterpriseUpdate remoteOk cfgSame stPrior).st = stPrior)) :=
  C1_update_contract remoteOk cfgSame stPrior rfl

/-- C5 (counterexample to the claim as stated): a `domain` explicitly
declared as the empty string is dropped from the creation request — the
request is identical to the one built from a configuration that omits
`domain`, so omission and explicit-empty are not distinguished or
preserved. -/
theorem C5_counterexample :
    cfgEmptyDomain.domain = DomainDecl.present "" ∧
    cfgAbsentDomain.domain = DomainDecl.absent ∧
    (buildCreateOptions cfgEmptyDomain).domain = none ∧
    buildCreateOptions cfgEmptyDomain = buildCreateOptions cfgAbsentDomain := by
  refine ⟨rfl, rfl, rfl, rfl⟩

/-- C5 (amended): the creation request always carries the three required
immutable attributes, and carries `domain` exactly when its declared value
is a non-empty string (`d.GetOk` treats an explicit empty string like an
omitted attribute). -/
theorem C5_create_request (cfg : DeclaredConfig) :
    (buildCreateOptions cfg).sourceAccountID = cfg.source_account_id ∧
    (buildCreateOptions cfg).optName = cfg.config_name ∧
    (buildCreateOptions cfg).primaryContactIamID = cfg.primary_contact_iam_id ∧
    ((buildCreateOptions cfg).domain =
      if cfg.domain.getString = "" then none else some cfg.domain.getString) := by
  refine ⟨rfl, rfl, rfl, ?_⟩
  by_cases h : cfg.domain.getString = "" <;>
    simp [buildCreateOptions, DomainDecl.getOk, h]

/-- C6 (counterexample to the claim as stated): deleting an instance whose
identifier is already unset still succeeds — `resourceIbmEnterpriseDelete`
returns nil diagnostics, not an InvalidState error. -/
theorem C6_counterexample :
    stUnset.id = "" ∧
    (resourceIbmEnterpriseDelete remoteOk stUnset).outcome = OpOutcome.ok ∧
    (resourceIbmEnterpriseDelete remoteOk stUnset).calls = [] :=
  ⟨rfl, rfl, rfl⟩

/-- C6 (amended): for every Delete invocation, the operation issues no
remote call, clears the local identifier, and succeeds regardless of prior
state — including when the identifier was already unset. -/
theorem C6_delete_local_only (remote : Remote) (st : InstanceState) :
    (resourceIbmEnterpriseDelete remote st).calls = [] ∧
    (resourceIbmEnterpriseDelete remote st).st.id = "" ∧
    (resourceIbmEnterpriseDelete remote st).st.attrs = st.attrs ∧
    (resourceIbmEnterpriseDelete remote st).outcome = OpOutcome.ok :=
  ⟨rfl, rfl, rfl, rfl⟩

/-- C7 (counterexample to the claim as stated): with a remote whose client
session cannot be obtained, Delete still succeeds — it never consults the
capability, so not every one of the four operations fails with the
client-unavailable error. -/
theorem C7_counterexample :
    remoteNoClient.client = Except.error "no credentials" ∧
    (resourceIbmEnterpriseDelete remoteNoClient stPrior).outcome =
      OpOutcome.ok :=
  ⟨rfl, rfl⟩

/-- C7 (amended): when the client capability cannot be obtained, Create,
Read and Update each return exactly the client error with no remote call
and an untouched state; Delete never consults the capability and succeeds
with no remote call. -/
theorem C7_client_unavailable (remote : Remote) (cfg : DeclaredConfig)
    (st : InstanceState) (msg : String)
    (h : remote.client = .error msg) :
    resourceIbmEnterpriseCreate remote cfg st = ⟨st, .error msg, []⟩ ∧
    resourceIbmEnterpriseRead remote st = ⟨st, .error msg, []⟩ ∧
    resourceIbmEnterpriseUpdate remote cfg st = ⟨st, .error msg, []⟩ ∧
    (resourceIbmEnterpriseDelete remote st).outcome = OpOutcome.ok ∧
    (resourceIbmEnterpriseDelete remote st).calls = [] := by
  refine ⟨?_, ?_, ?_, rfl, rfl⟩
  · simp [resourceIbmEnterpriseCreate, h]
  · simp [resourceIbmEnterpriseRead, h]
  · simp [resourceIbmEnterpriseUpdate, h]

/-- Witness for C7's amended theorem at a concrete client failure. -/
theorem C7_client_unavailable_witness :
    resourceIbmEnterpriseCreate remoteNoClient cfgSame stPrior =
      ⟨stPrior, .error "no credentials", []⟩ ∧
    resourceIbmEnterpriseRead remoteNoClient stPrior =
      ⟨stPrior, .error "no credentials", []⟩ ∧
    resourceIbmEnterpriseUpdate remoteNoClient cfgSame stPrior =
      ⟨stPrior, .error "no credentials", []⟩ ∧
    (resourceIbmEnterpriseDelete remoteNoClient stPrior).outcome =
      OpOutcome.ok ∧
    (resourceIbmEnterpriseDelete remoteNoClient stPrior).calls = [] :=
  C7_client_unavailable remoteNoClient cfgSame stPrior "no credentials" rfl

/-- C8 (code bug): the source's validator pattern `^IBMid\-[A-Z,0-9]{10}$`
puts a comma inside the character class, so it accepts
`IBMid-AB12,D34EF` — an identifier with a comma among its ten characters —
while the documented format (ten uppercase alphanumerics) rejects it; on
strings of uppercase letters and digits the two agree. -/
theorem C8_validator_accepts_comma :
    primaryContactIamIdValid "IBMid-AB12,D34EF" = true ∧
    specIamIdValid "IBMid-AB12,D34EF" = false ∧
    primaryContactIamIdValid "IBMid-AB12CD34EF" = true ∧
    specIamIdValid "IBMid-AB12CD34EF" = true ∧
    primaryContactIamIdValid "IBMid-ab12cd34ef" = false ∧
    primaryContactIamIdValid "IBMid-AB12CD34E" = false := by
  decide

end IBMEnterprise
